import Mathlib

/-!
Shallow embedding of the dash-emulator core (files emulator.py and
managers.py) used to check the natural-language specification against the
code.  Pure arithmetic is modelled over the rationals; byte counters over
the naturals; the event-driven control flow is modelled as traces of
task-creation / task-settlement / event-emission actions.
-/

namespace DashEmulator

/-- Modelled from the spec: the mpd module is not among the given sources.
A representation exposes an ordered list of segment URLs (abstracted as
numeric identifiers), index-aligned per-segment durations in seconds, a
start index, an initialization-segment URL, a bitrate, and a mutable
initialization-fetched flag. -/
structure Representation where
  rid : ℕ
  bandwidth : ℚ
  urls : List ℕ
  durations : List ℚ
  startNumber : ℕ
  initSegmentUrl : ℕ
  is_inited : Bool
deriving Repr, DecidableEq

/-- Modelled from the spec: the monitor module is not among the given
sources.  The Buffer Monitor keeps the seconds of downloaded media; feeding
a completed segment increases the buffer by that segment duration. -/
structure BufferMonitor where
  buffer : ℚ
deriving Repr, DecidableEq

def BufferMonitor.feed_segment (bm : BufferMonitor) (duration : ℚ) : BufferMonitor :=
  ⟨bm.buffer + duration⟩

def BufferMonitor.initial : BufferMonitor := ⟨0⟩

/-- Byte-counter update of Emulator.download_segment (emulator.py lines
23-27): for each chunk read, data_downloaded is increased by the length of
the chunk, in bytes. -/
def data_downloaded_after (start : ℕ) (chunks : List ℕ) : ℕ :=
  chunks.foldl (fun acc c => acc + c) start

/-- Byte-counter update of DownloadManager.download (managers.py lines
241-249): for each chunk read, the SpeedMonitor downloaded counter is
increased by the chunk length times 8, in bits. -/
def speed_monitor_downloaded_after (start : ℕ) (chunks : List ℕ) : ℕ :=
  chunks.foldl (fun acc c => acc + c * 8) start

/-- Sleep duration computed by Emulator.start when the buffer level exceeds
the maximum buffer size (emulator.py line 109): it sleeps
max_buffer - buffer_level seconds. -/
def max_buffer_sleep (max_buffer buffer_level : ℚ) : ℚ :=
  max_buffer - buffer_level

section Helpers

theorem foldl_add_eq_sum (chunks : List ℕ) (start : ℕ) :
    chunks.foldl (fun acc c => acc + c) start = start + chunks.sum := by
  induction chunks generalizing start with
  | nil => simp
  | cons c rest ih => simp [List.foldl_cons, ih, List.sum_cons]; ring

theorem foldl_add_mul8_eq_sum (chunks : List ℕ) (start : ℕ) :
    chunks.foldl (fun acc c => acc + c * 8) start = start + chunks.sum * 8 := by
  induction chunks generalizing start with
  | nil => simp
  | cons c rest ih => simp [List.foldl_cons, ih, List.sum_cons]; ring

end Helpers

/-- C8: feeding N bytes across K chunks to a downloaded-data counter yields
the same final counter value as feeding the N bytes in a single chunk, at
both call sites (Emulator.download_segment counts bytes,
DownloadManager.download counts bits). -/
theorem chunk_counter_homomorphic (start N : ℕ) (chunks : List ℕ)
    (h : chunks.sum = N) :
    data_downloaded_after start chunks = data_downloaded_after start [N] ∧
    speed_monitor_downloaded_after start chunks
      = speed_monitor_downloaded_after start [N] := by
  constructor
  · simp [data_downloaded_after, foldl_add_eq_sum, h]
  · simp [speed_monitor_downloaded_after, foldl_add_mul8_eq_sum, h]

/-- C8 witness: the partition [10240, 20480, 9280] of 40000 bytes gives the
same counters as the single chunk [40000]. -/
theorem chunk_counter_homomorphic_witness :
    ([10240, 20480, 9280] : List ℕ).sum = 40000 ∧
    (data_downloaded_after 7 [10240, 20480, 9280] = data_downloaded_after 7 [40000] ∧
     speed_monitor_downloaded_after 7 [10240, 20480, 9280]
       = speed_monitor_downloaded_after 7 [40000]) :=
  ⟨by decide, chunk_counter_homomorphic 7 40000 [10240, 20480, 9280] (by decide)⟩

/-- C9: whenever the buffer level exceeds the configured maximum buffer
size, the sleep duration computed by Emulator.start is negative, not
positive: asyncio.sleep with a negative delay returns immediately, so the
loop does not suspend before starting the next download. -/
theorem max_buffer_sleep_negative (mb bl : ℚ) (h : mb < bl) :
    max_buffer_sleep mb bl < 0 := by
  simp only [max_buffer_sleep]
  linarith

/-- C9 witness: with max_buffer 5 and buffer level 10 the computed sleep
duration is negative. -/
theorem max_buffer_sleep_negative_witness :
    (5 : ℚ) < 10 ∧ max_buffer_sleep 5 10 < 0 :=
  ⟨by norm_num, max_buffer_sleep_negative 5 10 (by norm_num)⟩

/-- Playback states of PlayManager.State (managers.py lines 14-18). -/
inductive PMState
  | READY
  | PLAYING
  | STALLING
  | STOPPED
deriving Repr, DecidableEq

/-- State of the PlayManager singleton as set by PlayManager.__init__
(managers.py lines 28-47): playback clock, playback state, representation
indices and per-segment bandwidth statistics.  Task handles are abstracted
as optional identifiers; the cfg, mpd and abr_controller references point
into modules outside the given sources and are omitted. -/
structure PlayManager where
  inited : Bool
  current_time : ℚ
  start_time : ℚ
  check_buffer_sufficient_task : Option ℕ
  update_current_time_task : Option ℕ
  state : PMState
  current_video_representation_ind : ℤ
  current_audio_representation_ind : ℤ
  bandwidth_segmentwise : List (ℕ × ℚ)
deriving Repr, DecidableEq

/-- Field values written by the guarded body of PlayManager.__init__. -/
def PlayManager.initial : PlayManager where
  inited := true
  current_time := 0
  start_time := 0
  check_buffer_sufficient_task := none
  update_current_time_task := none
  state := PMState.READY
  current_video_representation_ind := -1
  current_audio_representation_ind := -1
  bandwidth_segmentwise := []

/-- PlayManager.ready (managers.py lines 61-63). -/
def PlayManager.ready (pm : PlayManager) : Bool :=
  decide (pm.state = PMState.READY)

/-- PlayManager.buffer_level (managers.py lines 77-79): the BufferMonitor
buffer in seconds minus the playback clock, times 1000. -/
def PlayManager.buffer_level (pm : PlayManager) (bm : BufferMonitor) : ℚ :=
  (bm.buffer - pm.current_time) * 1000

/-- One iteration of PlayManager.update_current_time (managers.py lines
93-96): after sleeping for update_interval seconds, the clock advances by
update_interval. -/
def PlayManager.tick (pm : PlayManager) (update_interval : ℚ) : PlayManager :=
  { pm with current_time := pm.current_time + update_interval }

/-- Iterated clock ticks of PlayManager.update_current_time. -/
def PlayManager.ticks (pm : PlayManager) (update_interval : ℚ) : ℕ → PlayManager
  | 0 => pm
  | n + 1 => (pm.ticks update_interval n).tick update_interval

/-- Event triggered when PlayManager.check_buffer_sufficient exits its
sleep loop, i.e. once the buffer level is at most 0 (managers.py lines
88-91): End when the presentation duration is not greater than the clock,
Stall otherwise. -/
inductive BufferCheckEvent
  | EndEvent
  | StallEvent
deriving Repr, DecidableEq

def PlayManager.check_buffer_outcome (pm : PlayManager)
    (mediaPresentationDuration : ℚ) : BufferCheckEvent :=
  if mediaPresentationDuration ≤ pm.current_time then BufferCheckEvent.EndEvent
  else BufferCheckEvent.StallEvent

/-- The check_canplay handler registered on DownloadComplete (managers.py
lines 170-172): it emits CanPlay exactly when the player is ready and
buffer_level exceeds minBufferTime. -/
def PlayManager.check_canplay (pm : PlayManager) (bm : BufferMonitor)
    (minBufferTime : ℚ) : Bool :=
  pm.ready && decide (minBufferTime < pm.buffer_level bm)

/-- C2 counterexample: from the initial state with no media fed, one clock
tick of one second makes the reported buffer level equal -1000, strictly
negative: the code does not clamp the buffer level at zero. -/
theorem buffer_level_not_clamped :
    (PlayManager.initial.tick 1).buffer_level BufferMonitor.initial < 0 := by
  norm_num [PlayManager.buffer_level, PlayManager.tick, PlayManager.initial,
    BufferMonitor.initial]

/-- C2 amended: the reported buffer level is (buffer - current_time) * 1000,
with no clamp: it is strictly negative exactly when the playback clock has
advanced beyond the total fed duration; when the buffer-sufficiency check
observes a non-positive level before the presentation duration is reached it
triggers Stall rather than End. -/
theorem buffer_level_negative_iff (pm : PlayManager) (bm : BufferMonitor)
    (D : ℚ) :
    (pm.buffer_level bm < 0 ↔ bm.buffer < pm.current_time) ∧
    (pm.current_time < D →
      pm.check_buffer_outcome D = BufferCheckEvent.StallEvent) := by
  constructor
  · constructor
    · intro h
      by_contra hc
      push_neg at hc
      have : 0 ≤ (bm.buffer - pm.current_time) * 1000 := by nlinarith
      simp only [PlayManager.buffer_level] at h
      linarith
    · intro h
      simp only [PlayManager.buffer_level]
      nlinarith
  · intro h
    simp [PlayManager.check_buffer_outcome, not_le.mpr h]

/-- C2 amended witness: after one 1-second tick with nothing fed, the buffer
level is negative and, with presentation duration 2, the check triggers
Stall. -/
theorem buffer_level_negative_iff_witness :
    ((PlayManager.initial.tick 1).buffer_level BufferMonitor.initial < 0 ↔
      BufferMonitor.initial.buffer < (PlayManager.initial.tick 1).current_time) ∧
    (PlayManager.initial.tick 1).check_buffer_outcome 2
      = BufferCheckEvent.StallEvent :=
  ⟨(buffer_level_negative_iff (PlayManager.initial.tick 1)
      BufferMonitor.initial 2).1,
   (buffer_level_negative_iff (PlayManager.initial.tick 1)
      BufferMonitor.initial 2).2
     (by norm_num [PlayManager.tick, PlayManager.initial])⟩

/-- C7 counterexample: with update_interval 1 and a manifest whose total
presentation duration is 1, two clock ticks drive current_time to 2,
strictly beyond the total duration: nothing clamps or stops the clock. -/
theorem current_time_exceeds_duration :
    (1 : ℚ) < (PlayManager.initial.ticks 1 2).current_time := by
  norm_num [PlayManager.ticks, PlayManager.tick, PlayManager.initial]

/-- C7 amended: after n ticks the clock equals its start value plus
n * update_interval; with any positive update_interval the clock therefore
eventually exceeds every duration D (the End event observed by the buffer
check when D <= current_time does not cap the clock itself). -/
theorem current_time_unbounded (pm : PlayManager) (ui : ℚ) (hui : 0 < ui) :
    (∀ n : ℕ, (pm.ticks ui n).current_time = pm.current_time + n * ui) ∧
    (∀ D : ℚ, ∃ n : ℕ, D < (pm.ticks ui n).current_time) := by
  have hform : ∀ n : ℕ, (pm.ticks ui n).current_time = pm.current_time + n * ui := by
    intro n
    induction n with
    | zero => simp [PlayManager.ticks]
    | succ k ih =>
      simp [PlayManager.ticks, PlayManager.tick, ih]
      ring
  refine ⟨hform, ?_⟩
  intro D
  obtain ⟨n, hn⟩ := exists_nat_gt ((D - pm.current_time) / ui)
  refine ⟨n, ?_⟩
  rw [hform n]
  have := (div_lt_iff₀ hui).mp hn
  linarith

/-- C7 amended witness: the unboundedness theorem applied with
update_interval 1 at the initial play-manager state. -/
theorem current_time_unbounded_witness :
    (0 : ℚ) < 1 ∧
    (PlayManager.initial.ticks 1 3).current_time
      = PlayManager.initial.current_time + (3 : ℕ) * 1 ∧
    ∃ n : ℕ, (5 : ℚ) < (PlayManager.initial.ticks 1 n).current_time :=
  ⟨by norm_num,
   (current_time_unbounded PlayManager.initial 1 (by norm_num)).1 3,
   (current_time_unbounded PlayManager.initial 1 (by norm_num)).2 5⟩

/-- C5 counterexample: in the Ready initial state, after a single completed
2-second segment and with minBufferTime 4, check_canplay already emits
CanPlay (it compares the buffer level in milliseconds, 2000, against the
threshold value 4), contradicting the claim that CanPlay fires only once
two segments have completed. -/
theorem check_canplay_fires_after_one_segment :
    PlayManager.initial.check_canplay (BufferMonitor.initial.feed_segment 2) 4
      = true := by
  norm_num [PlayManager.check_canplay, PlayManager.ready, PlayManager.initial,
    PlayManager.buffer_level, BufferMonitor.feed_segment, BufferMonitor.initial]

/-- C5 amended: CanPlay is emitted on DownloadComplete iff the player state
is Ready and the buffer level in milliseconds exceeds the numeric
minBufferTime value; with 2-second segments and minBufferTime 4, CanPlay
fires already after the first completed segment (2000 > 4) and not with an
empty buffer. -/
theorem check_canplay_characterization (pm : PlayManager) (bm : BufferMonitor)
    (minBufferTime : ℚ) :
    (pm.check_canplay bm minBufferTime = true ↔
      (pm.state = PMState.READY ∧ minBufferTime < pm.buffer_level bm)) ∧
    PlayManager.initial.check_canplay (BufferMonitor.initial.feed_segment 2) 4
      = true ∧
    PlayManager.initial.check_canplay BufferMonitor.initial 4 = false := by
  refine ⟨?_, ?_, ?_⟩
  · simp [PlayManager.check_canplay, PlayManager.ready]
  · norm_num [PlayManager.check_canplay, PlayManager.ready, PlayManager.initial,
      PlayManager.buffer_level, BufferMonitor.feed_segment, BufferMonitor.initial]
  · norm_num [PlayManager.check_canplay, PlayManager.ready, PlayManager.initial,
      PlayManager.buffer_level, BufferMonitor.initial]

/-- State mutated by the polling loop of Emulator.download_progress_monitor
(emulator.py lines 53-70): the forced-degrade flag set_to_lowest_quaity (the
source's spelling) and the number of task.cancel() invocations performed. -/
structure MonitorState where
  set_to_lowest_quaity : Bool
  cancel_calls : ℕ
deriving Repr, DecidableEq

/-- Python runtime errors raised by the arithmetic modelled here. -/
inductive PyErr
  | typeError
  | zeroDivision
deriving Repr, DecidableEq

/-- Dynamically-typed Python values flowing through the progress-monitor
arithmetic: ints and floats (both carried as rationals but kept as distinct
runtime types) and strings as character lists.  Needed because emulator.py
line 21 stores the Content-Length response header, a string, into
segment_content_length with no conversion, although line 89 initialises
that attribute to the int 0 with an int type annotation. -/
inductive PyVal
  | intv : ℤ → PyVal
  | floatv : ℚ → PyVal
  | strv : List Char → PyVal
deriving Repr, DecidableEq

/-- Numeric view of a Python value: ints and floats are numbers, strings
are not. -/
def pyNum : PyVal → Option ℚ
  | PyVal.intv a => some (a : ℚ)
  | PyVal.floatv q => some q
  | PyVal.strv _ => none

/-- Python multiplication on the value shapes occurring here: numbers
multiply (int with int staying int), a string times an int repeats the
string, and a string with a float or another string raises TypeError. -/
def pyMul : PyVal → PyVal → Except PyErr PyVal
  | PyVal.intv a, PyVal.intv b => Except.ok (PyVal.intv (a * b))
  | PyVal.intv a, PyVal.floatv b => Except.ok (PyVal.floatv (a * b))
  | PyVal.floatv a, PyVal.intv b => Except.ok (PyVal.floatv (a * b))
  | PyVal.floatv a, PyVal.floatv b => Except.ok (PyVal.floatv (a * b))
  | PyVal.strv s, PyVal.intv n =>
      Except.ok (PyVal.strv (List.flatten (List.replicate n.toNat s)))
  | PyVal.intv n, PyVal.strv s =>
      Except.ok (PyVal.strv (List.flatten (List.replicate n.toNat s)))
  | PyVal.strv _, PyVal.floatv _ => Except.error PyErr.typeError
  | PyVal.floatv _, PyVal.strv _ => Except.error PyErr.typeError
  | PyVal.strv _, PyVal.strv _ => Except.error PyErr.typeError

/-- Python true division: a float between numbers, TypeError when either
operand is a string. -/
def pyDiv (a b : PyVal) : Except PyErr ℚ :=
  match pyNum a, pyNum b with
  | some x, some y =>
      if y = 0 then Except.error PyErr.zeroDivision else Except.ok (x / y)
  | _, _ => Except.error PyErr.typeError

/-- Python less-than on the shapes occurring here: numeric comparison, and
TypeError between a number and a string. -/
def pyLt (a b : PyVal) : Except PyErr Bool :=
  match pyNum a, pyNum b with
  | some x, some y => Except.ok (decide (x < y))
  | _, _ => Except.error PyErr.typeError

/-- Assignment at emulator.py line 21: after any completed download the
stored segment_content_length is the raw Content-Length header value, a
string. -/
def stored_content_length (header : List Char) : PyVal :=
  PyVal.strv header

/-- Deadline computation of Emulator.download_progress_monitor (emulator.py
lines 46-48): timeout = segment_content_length * 8 / bandwidth over the
dynamic values, where the length is whatever is currently stored and the
bandwidth estimate is a number. -/
def download_progress_timeout (segment_content_length bandwidth : PyVal) :
    Except PyErr ℚ := do
  pyDiv (← pyMul segment_content_length (PyVal.intv 8)) bandwidth

/-- One poll iteration of the monitor loop (emulator.py lines 54-70): when
elapsed time exceeds timeout * timeout_max_ratio the forced-degrade flag is
set and task.cancel() is invoked, and the loop continues; then the bytes
downloaded so far for this segment are compared against the two fractional
thresholds of the stored content length (min_frame_chunk_ratio, and inside
its else branch vq_threshold_size_ratio), both corrective branches being
TODO no-ops in the source. -/
def monitor_poll (elapsed : ℚ) (downloaded : ℤ) (timeout maxFactor : ℚ)
    (minChunkFactor vqFactor : ℚ) (segment_content_length : PyVal)
    (st : MonitorState) : Except PyErr MonitorState := do
  let st := if timeout * maxFactor < elapsed then
      { set_to_lowest_quaity := true, cancel_calls := st.cancel_calls + 1 }
    else st
  let minSize ← pyMul (PyVal.floatv minChunkFactor) segment_content_length
  let below ← pyLt (PyVal.intv downloaded) minSize
  if below then
    pure st
  else do
    let vqSize ← pyMul (PyVal.floatv vqFactor) segment_content_length
    let _ ← pyLt (PyVal.intv downloaded) vqSize
    pure st

/-- First n poll iterations of the monitor loop: elapsed k and
downloadedAt k are the wall-clock offset and the per-segment byte count
observed at the k-th poll.  The flag starts false (set in __init__) and the
cancel count at zero; a TypeError in the threshold arithmetic kills the
loop. -/
def monitor_loop (elapsed : ℕ → ℚ) (downloadedAt : ℕ → ℤ)
    (timeout maxFactor minChunkFactor vqFactor : ℚ)
    (segment_content_length : PyVal) : ℕ → Except PyErr MonitorState
  | 0 => Except.ok { set_to_lowest_quaity := false, cancel_calls := 0 }
  | n + 1 => do
      let st ← monitor_loop elapsed downloadedAt timeout maxFactor
        minChunkFactor vqFactor segment_content_length n
      monitor_poll (elapsed n) (downloadedAt n) timeout maxFactor
        minChunkFactor vqFactor segment_content_length st

/-- The download_progress_monitor coroutine (emulator.py lines 41-70) up to
its n-th poll: it first computes the timeout from the stored content length
and the bandwidth estimate, then enters the poll loop; an uncaught
TypeError anywhere kills the coroutine. -/
def download_progress_monitor (elapsed : ℕ → ℚ) (downloadedAt : ℕ → ℤ)
    (segment_content_length bandwidth : PyVal)
    (maxFactor minChunkFactor vqFactor : ℚ) (n : ℕ) :
    Except PyErr MonitorState := do
  let timeout ← download_progress_timeout segment_content_length bandwidth
  monitor_loop elapsed downloadedAt timeout maxFactor minChunkFactor
    vqFactor segment_content_length n

/-- C3: the code never computes the claimed deadline: after any download
the stored content length is the Content-Length header string, so
length * 8 is string repetition and the division by the bandwidth estimate
raises TypeError instead of yielding 4.0 seconds, contradicting the int
annotation on the attribute written by the same class; with the intended
numeric length 500000 the same expression evaluates to exactly 4 at
bandwidth 1000000. -/
theorem progress_deadline_type_error :
    download_progress_timeout
        (stored_content_length ['5', '0', '0', '0', '0', '0'])
        (PyVal.floatv 1000000)
      = Except.error PyErr.typeError ∧
    download_progress_timeout (PyVal.intv 500000) (PyVal.floatv 1000000)
      = Except.ok 4 := by
  constructor
  · rfl
  · norm_num [download_progress_timeout, pyMul, pyDiv, pyNum, bind, Except.bind]

/-- C4: the monitor never performs exactly one cancellation.  For a
download that stored the Content-Length header string, the coroutine dies
with TypeError while computing the deadline, before the first poll: zero
cancellations and the forced-degrade flag never set.  On the only numeric
value segment_content_length ever holds (the initial int 0, before any
download stored a header), the timeout is 0 and the loop, having no break
after cancelling, invokes task.cancel() at every poll: two polls already
give two cancel calls. -/
theorem monitor_cancellation_diverges :
    download_progress_monitor (fun k => 7 + (k : ℚ) * (1 / 20)) (fun _ => 0)
        (stored_content_length ['5', '0', '0', '0', '0', '0'])
        (PyVal.floatv 1000000) (3 / 2) (1 / 10) (3 / 5) 2
      = Except.error PyErr.typeError ∧
    download_progress_monitor (fun k => 7 + (k : ℚ) * (1 / 20)) (fun _ => 0)
        (PyVal.intv 0) (PyVal.floatv 1000000) (3 / 2) (1 / 10) (3 / 5) 2
      = Except.ok { set_to_lowest_quaity := true, cancel_calls := 2 } := by
  constructor
  · rfl
  · norm_num [download_progress_monitor, download_progress_timeout,
      monitor_loop, monitor_poll, pyMul, pyDiv, pyNum, pyLt,
      bind, Except.bind, pure, Except.pure]

/-- Events of the events module that occur in the modelled handlers. -/
inductive Ev
  | DownloadStart
  | DownloadEnd
  | DownloadComplete
  | InitializationDownloadComplete
  | CanPlay
  | Play
  | Stall
  | EndOfStream
deriving Repr, DecidableEq

/-- Observable actions of a download trace: creation of a download task,
its settlement (the await returning, by completion or cancellation), and
event emissions. -/
inductive DlAct
  | createTask
  | finishTask
  | emit : Ev → DlAct
deriving Repr, DecidableEq

/-- Trace and state update of the start_download handler registered on
DownloadStart by DownloadManager.init (managers.py lines 255-288), with the
manager's representation and video_ind passed explicitly.  When video_ind
is at or past the end of the url list only DownloadEnd is emitted; when the
representation is not initialised the initialization segment is downloaded
(create then await), the flag is set and InitializationDownloadComplete is
emitted; then the indexed media segment is downloaded and DownloadComplete
is emitted. -/
def start_download (rep : Representation) (video_ind : ℕ) :
    List DlAct × Representation :=
  if rep.urls.length ≤ video_ind then
    ([DlAct.emit Ev.DownloadEnd], rep)
  else
    let step :=
      if rep.is_inited then (([] : List DlAct), rep)
      else ([DlAct.createTask, DlAct.finishTask,
             DlAct.emit Ev.InitializationDownloadComplete],
            { rep with is_inited := true })
    (step.1 ++ [DlAct.createTask, DlAct.finishTask,
                DlAct.emit Ev.DownloadComplete], step.2)

/-- Serial-download discipline over a trace: a download task is created
only while no other download task is pending, and a settlement matches the
pending task.  The Boolean argument records whether a task is pending. -/
def serialOk : Bool → List DlAct → Bool
  | _, [] => true
  | pending, DlAct.createTask :: rest => !pending && serialOk true rest
  | pending, DlAct.finishTask :: rest => pending && serialOk false rest
  | pending, DlAct.emit _ :: rest => serialOk pending rest

/-- Trace of the polling loop of Emulator.start (emulator.py lines
106-131): while ind is below the url-list length of the current
representation, the loop re-chooses a representation (abstracted by the
chooser, indexed by iteration), downloads its initialization segment first
when that representation has not been initialised (recorded per
representation identifier), downloads the indexed media segment, and
advances ind.  Each download is a task creation awaited immediately.  Fuel
bounds the number of iterations. -/
def startLoop (choose : ℕ → Representation) :
    ℕ → Representation → ℕ → (ℕ → Bool) → ℕ → List DlAct
  | 0, _, _, _, _ => []
  | fuel + 1, rep, ind, initedIds, iter =>
    if ind < rep.urls.length then
      let rep2 := choose iter
      (if initedIds rep2.rid then ([] : List DlAct)
       else [DlAct.createTask, DlAct.finishTask]) ++
      [DlAct.createTask, DlAct.finishTask] ++
      startLoop choose fuel rep2 (ind + 1)
        (Function.update initedIds rep2.rid true) (iter + 1)
    else []

/-- Trace of the event-driven session (managers.py lines 148-175 and
255-288): each DownloadStart dispatch runs start_download; when it did not
emit DownloadEnd, the DownloadComplete handler download_next chooses the
next representation (abstracted by the chooser), advances video_ind and
triggers DownloadStart again.  Fuel bounds the number of dispatches. -/
def eventSession (choose : ℕ → Representation) :
    ℕ → Representation → ℕ → ℕ → List DlAct
  | 0, _, _, _ => []
  | fuel + 1, rep, video_ind, k =>
    (start_download rep video_ind).1 ++
    (if rep.urls.length ≤ video_ind then []
     else eventSession choose fuel (choose k) (video_ind + 1) (k + 1))

theorem serialOk_emit (pending : Bool) (e : Ev) (l : List DlAct) :
    serialOk pending (DlAct.emit e :: l) = serialOk pending l := by
  simp [serialOk]

theorem serialOk_pair (l : List DlAct) :
    serialOk false (DlAct.createTask :: DlAct.finishTask :: l)
      = serialOk false l := by
  simp [serialOk]

theorem serialOk_start_download (rep : Representation) (video_ind : ℕ) :
    serialOk false (start_download rep video_ind).1 = true := by
  rw [start_download]
  by_cases hpast : rep.urls.length ≤ video_ind
  · simp [hpast, serialOk]
  · by_cases hin : rep.is_inited
    · simp [hpast, hin, serialOk]
    · simp [hpast, hin, serialOk]

theorem serialOk_startLoop (choose : ℕ → Representation) (fuel : ℕ) :
    ∀ (rep : Representation) (ind : ℕ) (initedIds : ℕ → Bool) (iter : ℕ),
      serialOk false (startLoop choose fuel rep ind initedIds iter) = true := by
  induction fuel with
  | zero => intro rep ind initedIds iter; rfl
  | succ m ih =>
    intro rep ind initedIds iter
    rw [startLoop]
    by_cases hcond : ind < rep.urls.length
    · simp only [hcond, if_pos]
      by_cases hin : initedIds (choose iter).rid
      · simp only [hin, if_pos, List.nil_append, serialOk_pair]
        exact ih _ _ _ _
      · simp only [hin, if_neg, not_false_iff, List.cons_append,
          List.nil_append, serialOk_pair]
        exact ih _ _ _ _
    · simp [hcond, serialOk]

theorem serialOk_eventSession (choose : ℕ → Representation) (fuel : ℕ) :
    ∀ (rep : Representation) (video_ind k : ℕ),
      serialOk false (eventSession choose fuel rep video_ind k) = true := by
  induction fuel with
  | zero => intro rep video_ind k; rfl
  | succ m ih =>
    intro rep video_ind k
    rw [eventSession]
    by_cases hpast : rep.urls.length ≤ video_ind
    · simp [start_download, hpast, serialOk]
    · rw [start_download]
      simp only [hpast, if_neg, not_false_iff]
      by_cases hin : rep.is_inited
      · simp only [hin, if_pos, if_neg hpast, List.nil_append, List.cons_append,
          serialOk_pair, serialOk_emit]
        exact ih _ _ _
      · simp only [hin, if_neg, not_false_iff, if_neg hpast, List.cons_append,
          List.nil_append, serialOk_pair, serialOk_emit]
        exact ih _ _ _

/-- C1: every trace of the polling-loop emulator and every trace of the
event-driven download manager satisfies the serial-download discipline: a
new download task is created only after the previous download task has been
awaited to settlement, for every chooser, fuel and starting state. -/
theorem downloads_are_serial (choose : ℕ → Representation) (fuel : ℕ)
    (rep : Representation) (ind : ℕ) (initedIds : ℕ → Bool) (iter : ℕ)
    (rep2 : Representation) (video_ind k : ℕ) :
    serialOk false (startLoop choose fuel rep ind initedIds iter) = true ∧
    serialOk false (eventSession choose fuel rep2 video_ind k) = true :=
  ⟨serialOk_startLoop choose fuel rep ind initedIds iter,
   serialOk_eventSession choose fuel rep2 video_ind k⟩

/-- C6: dispatch behaviour of start_download: at or past the end of the
url list, only DownloadEnd is emitted and no task is created; on an
uninitialised representation the initialization segment is downloaded and
InitializationDownloadComplete emitted before the media-segment download,
and the flag is set; on an initialised representation only the media
segment is downloaded; DownloadComplete follows every media-segment
download. -/
theorem start_download_dispatch (rep : Representation) (video_ind : ℕ) :
    (rep.urls.length ≤ video_ind →
      start_download rep video_ind = ([DlAct.emit Ev.DownloadEnd], rep)) ∧
    (video_ind < rep.urls.length → rep.is_inited = false →
      start_download rep video_ind =
        ([DlAct.createTask, DlAct.finishTask,
          DlAct.emit Ev.InitializationDownloadComplete,
          DlAct.createTask, DlAct.finishTask, DlAct.emit Ev.DownloadComplete],
         { rep with is_inited := true })) ∧
    (video_ind < rep.urls.length → rep.is_inited = true →
      start_download rep video_ind =
        ([DlAct.createTask, DlAct.finishTask, DlAct.emit Ev.DownloadComplete],
         rep)) := by
  refine ⟨?_, ?_, ?_⟩
  · intro h
    simp [start_download, h]
  · intro h hin
    simp [start_download, not_le.mpr h, hin]
  · intro h hin
    simp [start_download, not_le.mpr h, hin]

/-- A concrete representation used to witness start_download dispatch. -/
def repWitness : Representation where
  rid := 0
  bandwidth := 1000000
  urls := [100, 101]
  durations := [2, 2]
  startNumber := 0
  initSegmentUrl := 99
  is_inited := false

/-- C6 witness: the dispatch theorem applied at a concrete representation,
one instance per branch. -/
theorem start_download_dispatch_witness :
    start_download repWitness 5 = ([DlAct.emit Ev.DownloadEnd], repWitness) ∧
    start_download repWitness 0 =
      ([DlAct.createTask, DlAct.finishTask,
        DlAct.emit Ev.InitializationDownloadComplete,
        DlAct.createTask, DlAct.finishTask, DlAct.emit Ev.DownloadComplete],
       { repWitness with is_inited := true }) ∧
    start_download { repWitness with is_inited := true } 0 =
      ([DlAct.createTask, DlAct.finishTask, DlAct.emit Ev.DownloadComplete],
       { repWitness with is_inited := true }) :=
  ⟨(start_download_dispatch repWitness 5).1 (by decide),
   (start_download_dispatch repWitness 0).2.1 (by decide) rfl,
   (start_download_dispatch { repWitness with is_inited := true } 0).2.2
     (by decide) rfl⟩

/-- PlayManager.__init__ (managers.py lines 28-47): the body is guarded by
the inited flag, so a second initialisation leaves the instance unchanged. -/
def PlayManager.run_init (s : PlayManager) : PlayManager :=
  if s.inited then s else PlayManager.initial

/-- PlayManager() construction (managers.py lines 22-26 followed by
__init__): __new__ returns the stored class instance when one exists,
otherwise stores a freshly allocated object carrying inited = false; then
__init__ runs on the returned instance. -/
def PlayManager.construct (inst : Option PlayManager) (fresh : PlayManager) :
    PlayManager :=
  PlayManager.run_init
    (match inst with
     | none => { fresh with inited := false }
     | some s => s)

/-- State of the DownloadManager singleton as set by
DownloadManager.__init__ (managers.py lines 219-232): segment indices,
content length of the segment in flight and the current representation, all
None before init assigns them; the cfg, mpd and abr_controller references
point into modules outside the given sources and are omitted. -/
structure DownloadManager where
  inited : Bool
  video_ind : Option ℕ
  audio_ind : Option ℕ
  segment_length : Option ℕ
  representation : Option Representation
deriving Repr, DecidableEq

/-- Field values written by the guarded body of DownloadManager.__init__. -/
def DownloadManager.initial : DownloadManager where
  inited := true
  video_ind := none
  audio_ind := none
  segment_length := none
  representation := none

/-- DownloadManager.__init__ (managers.py lines 219-232), guarded by the
inited flag. -/
def DownloadManager.run_init (s : DownloadManager) : DownloadManager :=
  if s.inited then s else DownloadManager.initial

/-- DownloadManager() construction (managers.py lines 213-217 followed by
__init__). -/
def DownloadManager.construct (inst : Option DownloadManager)
    (fresh : DownloadManager) : DownloadManager :=
  DownloadManager.run_init
    (match inst with
     | none => { fresh with inited := false }
     | some s => s)

/-- C10: constructing PlayManager() or DownloadManager() is idempotent:
the first construction yields an initialised instance, a construction on an
already-initialised stored instance returns it unchanged (so every later
call returns the identical instance with all fields preserved), and in
particular a second construction after the first returns the first result. -/
theorem singleton_construction_idempotent (ps pf pf2 : PlayManager)
    (ds df df2 : DownloadManager) :
    (PlayManager.construct none pf).inited = true ∧
    (ps.inited = true → PlayManager.construct (some ps) pf2 = ps) ∧
    PlayManager.construct (some (PlayManager.construct none pf)) pf2
      = PlayManager.construct none pf ∧
    (DownloadManager.construct none df).inited = true ∧
    (ds.inited = true → DownloadManager.construct (some ds) df2 = ds) ∧
    DownloadManager.construct (some (DownloadManager.construct none df)) df2
      = DownloadManager.construct none df := by
  refine ⟨?_, ?_, ?_, ?_, ?_, ?_⟩
  · simp [PlayManager.construct, PlayManager.run_init, PlayManager.initial]
  · intro h
    simp [PlayManager.construct, PlayManager.run_init, h]
  · simp [PlayManager.construct, PlayManager.run_init, PlayManager.initial]
  · simp [DownloadManager.construct, DownloadManager.run_init,
      DownloadManager.initial]
  · intro h
    simp [DownloadManager.construct, DownloadManager.run_init, h]
  · simp [DownloadManager.construct, DownloadManager.run_init,
      DownloadManager.initial]

/-- C10 witness: the idempotence theorem applied at already-initialised
instances, with arbitrary fresh allocations. -/
theorem singleton_construction_idempotent_witness :
    (PlayManager.construct none PlayManager.initial).inited = true ∧
    PlayManager.construct (some PlayManager.initial) PlayManager.initial
      = PlayManager.initial ∧
    PlayManager.construct
        (some (PlayManager.construct none PlayManager.initial))
        PlayManager.initial
      = PlayManager.construct none PlayManager.initial ∧
    (DownloadManager.construct none DownloadManager.initial).inited = true ∧
    DownloadManager.construct (some DownloadManager.initial)
        DownloadManager.initial
      = DownloadManager.initial ∧
    DownloadManager.construct
        (some (DownloadManager.construct none DownloadManager.initial))
        DownloadManager.initial
      = DownloadManager.construct none DownloadManager.initial :=
  ⟨(singleton_construction_idempotent PlayManager.initial PlayManager.initial
      PlayManager.initial DownloadManager.initial DownloadManager.initial
      DownloadManager.initial).1,
   (singleton_construction_idempotent PlayManager.initial PlayManager.initial
      PlayManager.initial DownloadManager.initial DownloadManager.initial
      DownloadManager.initial).2.1 rfl,
   (singleton_construction_idempotent PlayManager.initial PlayManager.initial
      PlayManager.initial DownloadManager.initial DownloadManager.initial
      DownloadManager.initial).2.2.1,
   (singleton_construction_idempotent PlayManager.initial PlayManager.initial
      PlayManager.initial DownloadManager.initial DownloadManager.initial
      DownloadManager.initial).2.2.2.1,
   (singleton_construction_idempotent PlayManager.initial PlayManager.initial
      PlayManager.initial DownloadManager.initial DownloadManager.initial
      DownloadManager.initial).2.2.2.2.1 rfl,
   (singleton_construction_idempotent PlayManager.initial PlayManager.initial
      PlayManager.initial DownloadManager.initial DownloadManager.initial
      DownloadManager.initial).2.2.2.2.2⟩

end DashEmulator
